import Mathlib

/-!
Shallow embedding of `train.py` (torchtitan training loop) and proofs about it.

Modelling conventions:
* Python `float` loss values are modelled as `Rat`; the claims at issue never
  perform float arithmetic whose rounding matters (values are only stored,
  appended and compared), except that `torch.tensor(_, dtype=torch.int32)`
  wraps to 32-bit, which we model explicitly with `wrap32`.
* A 0-dimensional torch tensor and a 1-dimensional tensor are distinguished by
  `TensorVal`, because `Tensor.tolist()` returns a Python scalar for a
  0-dimensional tensor and a Python list for a 1-dimensional one; the dynamic
  (untyped) value that a Python assignment can store is `PyVal`.
* The training loop (`main`, lines 173-252) is embedded as a state-transition
  function `loopBody` that also emits the ordered list of externally visible
  operations (`Event`) the body performs, and `runLoop` iterates it from the
  fresh state.  External inputs are abstracted as functions of the iteration
  index: `f k` is the mean loss computed at iteration `k`, `w k` the number of
  label words of the batch, `g k` whether the gradients were finite (torch's
  `ShardedGradScaler.step` skips `optimizer.step()` on inf/NaN gradients).
* Wall-clock time (`time_last_log`, `wps`) and the actual metric values are not
  modelled; only the emission and reset behaviour of the metrics window, which
  is what the claims speak about.
-/

namespace TorchTrain

/-- Two's-complement wrap to 32 bits, as performed by
`torch.tensor(n, dtype=torch.int32)`. -/
def wrap32 (n : Int) : Int :=
  (n + 2 ^ 31) % 2 ^ 32 - 2 ^ 31

/-- Payload of a torch tensor as it appears in `TrainState.state_dict`:
either a 0-dimensional (scalar) tensor or a 1-dimensional one. -/
inductive TensorVal where
  | scalar (x : Rat)
  | vector (xs : List Rat)
deriving DecidableEq

/-- An untyped Python value: what a Python assignment can store into a field.
`Tensor.tolist()` yields a `float` for a 0-dimensional tensor and a `list`
for a 1-dimensional one. -/
inductive PyVal where
  | float (x : Rat)
  | list (xs : List Rat)
deriving DecidableEq

/-- `Tensor.tolist()` (train.py line 50): a 0-dim tensor gives a scalar,
a 1-dim tensor gives a list. -/
def TensorVal.tolist : TensorVal → PyVal
  | .scalar x => .float x
  | .vector xs => .list xs

/-- `TrainState` dataclass (train.py lines 34-38) with its field defaults:
`step: int = 0`, `current_loss: float = -1`, `losses: List[float] = []`. -/
structure TrainState where
  step : Int := 0
  current_loss : Rat := -1
  losses : List Rat := []
deriving DecidableEq

/-- `train_state = TrainState()` (train.py line 148): a freshly constructed
state, all fields at their dataclass defaults. -/
def newTrainState : TrainState := {}

/-- The record returned by `TrainState.state_dict` (train.py lines 40-45):
a dict of three tensors.  `step` is stored as a 0-dim int32 tensor (modelled
by its wrapped integer value), `current_loss` and `losses` as float32 tensors
whose payloads are kept exact. -/
structure StateDict where
  step : Int
  current_loss : Rat
  losses : TensorVal
deriving DecidableEq

/-- `TrainState.state_dict` (train.py lines 40-45).  Note the source stores
`torch.tensor(self.current_loss)` — a 0-dimensional tensor built from
`current_loss` — under the key `"losses"` (line 44). -/
def TrainState.state_dict (s : TrainState) : StateDict :=
  { step := wrap32 s.step
    current_loss := s.current_loss
    losses := TensorVal.scalar s.current_loss }

/-- Dynamic view of the three `TrainState` fields after `load_state_dict`:
Python is untyped, so `self.losses` holds whatever `tolist()` returned. -/
structure TrainStateDyn where
  step : Int
  current_loss : Rat
  losses : PyVal
deriving DecidableEq

/-- The dynamic view of a well-typed `TrainState`. -/
def TrainState.toDyn (s : TrainState) : TrainStateDyn :=
  { step := s.step, current_loss := s.current_loss, losses := .list s.losses }

/-- `TrainState.load_state_dict` (train.py lines 47-50): copies
`state_dict["step"].item()`, `state_dict["current_loss"].item()` and
`state_dict["losses"].tolist()` into the fields, with no validation of any
kind (`self` is entirely overwritten, and no exception path exists). -/
def TrainState.load_state_dict (_self : TrainState) (sd : StateDict) : TrainStateDyn :=
  { step := sd.step
    current_loss := sd.current_loss
    losses := sd.losses.tolist }

/-! ## The training loop (train.py lines 167-252) -/

/-- Externally visible operations performed by one iteration of the training
loop body, in program order. -/
inductive Event where
  /-- `train_state.step += 1` (line 174); the argument is the new step. -/
  | incStep (newStep : Int)
  /-- `batch = next(iter(data_loader))` (line 176). -/
  | fetchBatch
  /-- `optimizer.zero_grad()` (line 182). -/
  | zeroGrad
  /-- forward pass and loss computation (lines 185-189). -/
  | forward
  /-- `scaler.scale(loss).backward()` (line 192). -/
  | backward
  /-- unscale + `model.clip_grad_norm_` (lines 195-196). -/
  | clipGrad
  /-- `scaler.step(optimizer)` (line 201): `taken = false` means the
  optimizer step was skipped because gradients contained inf/NaN. -/
  | optStep (taken : Bool)
  /-- `scaler.update()` (line 204). -/
  | scalerUpdate
  /-- `train_state.losses.append(train_state.current_loss)` (lines 210-211). -/
  | appendLoss (x : Rat)
  /-- `metric_logger.log(metrics, step=...)` (line 241). -/
  | logMetrics (step : Int)
  /-- `scheduler.step()` (line 250). -/
  | schedStep
  /-- `checkpoint.save(train_state.step, force=...)` (line 252). -/
  | save (step : Int) (force : Bool)
deriving DecidableEq

/-- Mutable state carried across loop iterations: `train_state` plus the
metrics accumulation window (lines 170-171). -/
structure LoopState where
  train_state : TrainState
  losses_since_last_log : List Rat
  nwords_since_last_log : Int
deriving DecidableEq

/-- State just before the first loop iteration (lines 148, 170-171). -/
def initLoopState : LoopState :=
  { train_state := newTrainState
    losses_since_last_log := []
    nwords_since_last_log := 0 }

/-- One iteration of the `while` body (train.py lines 174-252), given the
configured `log_freq` and total `steps`, the mean loss `x` computed this
iteration, the word count `nw` of the batch, and whether gradients were
finite (`gradFinite`).  Returns the updated state and the ordered list of
operations performed. -/
def loopBody (logFreq steps : Int) (x : Rat) (nw : Int) (gradFinite : Bool)
    (st : LoopState) : LoopState × List Event :=
  let step := st.train_state.step + 1
  let nwords := st.nwords_since_last_log + nw
  let lsll := st.losses_since_last_log ++ [x]
  let doLog := (step - 1) % logFreq == 0
  ( { train_state :=
        { step := step
          current_loss := x
          losses := st.train_state.losses ++ [x] }
      losses_since_last_log := if doLog then [] else lsll
      nwords_since_last_log := if doLog then 0 else nwords }
  , [.incStep step, .fetchBatch, .zeroGrad, .forward, .backward, .clipGrad,
     .optStep gradFinite, .scalerUpdate, .appendLoss x]
    ++ (if doLog then [.logMetrics step] else [])
    ++ [.schedStep, .save step (step == steps)] )

/-- The loop state after `n` completed iterations, starting from the fresh
state, with per-iteration inputs `f` (loss), `w` (words), `g` (finite?). -/
def runLoop (logFreq steps : Int) (f : Nat → Rat) (w : Nat → Int)
    (g : Nat → Bool) : Nat → LoopState
  | 0 => initLoopState
  | n + 1 =>
    (loopBody logFreq steps (f n) (w n) (g n)
      (runLoop logFreq steps f w g n)).1

/-- The `while` guard (train.py line 173):
`train_state.step < job_config.training.steps or job_config.training.steps == -1`. -/
def loopGuard (step steps : Int) : Bool :=
  step < steps || steps == -1

/-- Whether iteration `k` (0-based; its step is `k + 1`) emits a metric
record, read off from the events of that iteration. -/
def emitsAt (logFreq steps : Int) (f : Nat → Rat) (w : Nat → Int)
    (g : Nat → Bool) (k : Nat) : Bool :=
  ((loopBody logFreq steps (f k) (w k) (g k)
      (runLoop logFreq steps f w g k)).2).any
    (fun e => match e with | .logMetrics _ => true | _ => false)

/-- The intermediate `TrainState` values observed between the operations of
one loop body iteration that touch `train_state`:
after `step += 1` (line 174), after `current_loss = loss.item()` (line 210),
and after `losses.append(...)` (line 211). -/
def bodyStates (x : Rat) (ts : TrainState) : List TrainState :=
  let s1 : TrainState := { ts with step := ts.step + 1 }
  let s2 : TrainState := { s1 with current_loss := x }
  let s3 : TrainState := { s2 with losses := s2.losses ++ [x] }
  [s1, s2, s3]

/-! ## Data loader fetch (train.py line 176) -/

/-- A Python iterator over a list: the underlying elements and a cursor. -/
structure PyIterator (α : Type) where
  elems : List α
  pos : Nat
deriving DecidableEq

/-- `iter(xs)`: a fresh iterator positioned at the start. -/
def iterOf {α : Type} (xs : List α) : PyIterator α :=
  { elems := xs, pos := 0 }

/-- `next(it)`: the element at the cursor (None models `StopIteration`),
together with the advanced iterator. -/
def pyNext {α : Type} (it : PyIterator α) : Option (α × PyIterator α) :=
  match it.elems.drop it.pos with
  | [] => none
  | a :: _ => some (a, { it with pos := it.pos + 1 })

/-- The batch obtained at loop iteration `k`:
`batch = next(iter(data_loader))` (train.py line 176).  The source builds a
fresh iterator inside the loop body, so the expression does not depend on any
cursor surviving from a previous iteration. -/
def batchAtStep {α : Type} (data_loader : List α) (_k : Nat) : Option α :=
  (pyNext (iterOf data_loader)).map Prod.fst

/-! ## Helper lemmas -/

theorem loopBody_fst (logFreq steps : Int) (x : Rat) (nw : Int) (gradFinite : Bool)
    (st : LoopState) :
    (loopBody logFreq steps x nw gradFinite st).1 =
    { train_state :=
        { step := st.train_state.step + 1
          current_loss := x
          losses := st.train_state.losses ++ [x] }
      losses_since_last_log :=
        if (st.train_state.step + 1 - 1) % logFreq == 0 then []
        else st.losses_since_last_log ++ [x]
      nwords_since_last_log :=
        if (st.train_state.step + 1 - 1) % logFreq == 0 then 0
        else st.nwords_since_last_log + nw } := rfl

theorem runLoop_step (logFreq steps : Int) (f : Nat → Rat) (w : Nat → Int)
    (g : Nat → Bool) : ∀ n : Nat,
    (runLoop logFreq steps f w g n).train_state.step = n := by
  intro n
  induction n with
  | zero => rfl
  | succ n ih =>
    simp only [runLoop, loopBody_fst, ih]
    push_cast
    ring

theorem runLoop_losses_length (logFreq steps : Int) (f : Nat → Rat) (w : Nat → Int)
    (g : Nat → Bool) : ∀ n : Nat,
    (runLoop logFreq steps f w g n).train_state.losses.length = n := by
  intro n
  induction n with
  | zero => rfl
  | succ n ih =>
    simp only [runLoop, loopBody_fst, List.length_append, ih, List.length_singleton]

theorem loopBody_snd (logFreq steps : Int) (x : Rat) (nw : Int) (gradFinite : Bool)
    (st : LoopState) :
    (loopBody logFreq steps x nw gradFinite st).2 =
    [.incStep (st.train_state.step + 1), .fetchBatch, .zeroGrad, .forward,
     .backward, .clipGrad, .optStep gradFinite, .scalerUpdate, .appendLoss x]
    ++ (if (st.train_state.step + 1 - 1) % logFreq == 0
        then [.logMetrics (st.train_state.step + 1)] else [])
    ++ [.schedStep,
        .save (st.train_state.step + 1) ((st.train_state.step + 1) == steps)] := rfl

theorem emitsAt_eq (logFreq steps : Int) (f : Nat → Rat) (w : Nat → Int)
    (g : Nat → Bool) (k : Nat) :
    emitsAt logFreq steps f w g k = (((k : Int) + 1 - 1) % logFreq == 0) := by
  unfold emitsAt
  rw [loopBody_snd, runLoop_step]
  cases h : (((k : Int) + 1 - 1) % logFreq == 0) <;> simp [h]

end TorchTrain

namespace TorchTrain

/-! ## Claim theorems -/

/-- C10: a freshly constructed `TrainState` has `step = 0`, an empty `losses`
list, and `current_loss` equal to the defined sentinel value `-1`, and this is
exactly the state observed before the first loop iteration completes. -/
theorem C10_fresh_state (logFreq steps : Int) (f : Nat → Rat) (w : Nat → Int)
    (g : Nat → Bool) :
    newTrainState.step = 0 ∧ newTrainState.current_loss = -1
  ∧ newTrainState.losses = ([] : List Rat)
  ∧ (runLoop logFreq steps f w g 0).train_state = newTrainState :=
  ⟨rfl, rfl, rfl, rfl⟩

/-- C1: evaluation of the code at the failing input
`TrainState(step=1, current_loss=2, losses=[3])`: `state_dict` stores the
scalar `current_loss` under the `"losses"` key (train.py line 44), so the
round trip restores `losses` as the scalar `2` instead of the list `[3]`,
refuting the round-trip property. -/
theorem C1_state_dict_roundtrip_bug :
    TrainState.load_state_dict ⟨1, 2, [3]⟩ (TrainState.state_dict ⟨1, 2, [3]⟩)
      = { step := 1, current_loss := 2, losses := PyVal.float 2 }
  ∧ TrainState.load_state_dict ⟨1, 2, [3]⟩ (TrainState.state_dict ⟨1, 2, [3]⟩)
      ≠ TrainState.toDyn ⟨1, 2, [3]⟩ := by
  decide

/-- C2 counterexample: `load_state_dict` applied to a record whose `step` (2)
differs from the length of its losses vector (1) returns an inconsistent
state with those very fields instead of failing: no error path exists. -/
theorem C2_load_no_validation_cex :
    TrainState.load_state_dict newTrainState ⟨2, 0, TensorVal.vector [0]⟩
      = { step := 2, current_loss := 0, losses := PyVal.list [0] }
  ∧ (2 : Int) ≠ (([(0 : Rat)].length : Nat) : Int) := by
  decide

/-- C2 amended: `load_state_dict` performs no consistency check: even a
record whose `step` differs from the length of its losses vector is accepted
silently, every field copied as-is, with no repair and no error. -/
theorem C2_load_accepts_any_record (self : TrainState) (step : Int) (cl : Rat)
    (xs : List Rat) (hmis : step ≠ (xs.length : Int)) :
    TrainState.load_state_dict self ⟨step, cl, TensorVal.vector xs⟩
      = { step := step, current_loss := cl, losses := PyVal.list xs } := rfl

/-- C2 amended, witness at the concrete mismatched record
`{step = 2, current_loss = 0, losses = vector [0]}`. -/
theorem C2_load_accepts_any_record_witness :
    (2 : Int) ≠ (([(0 : Rat)].length : Nat) : Int)
  ∧ TrainState.load_state_dict newTrainState ⟨2, 0, TensorVal.vector [0]⟩
      = { step := 2, current_loss := 0, losses := PyVal.list [0] } :=
  ⟨by decide, C2_load_accepts_any_record newTrainState 2 0 [0] (by decide)⟩

/-- C3 counterexample: in the very first iteration (fresh state, loss `0`),
the intermediate state right after `train_state.step += 1` (line 174) has
`step = 1` but `losses` still empty, so it is not the case that at every
point between operations `step` equals the length of `losses`. -/
theorem C3_step_ahead_cex :
    ¬ (∀ st ∈ bodyStates 0 newTrainState, st.step = (st.losses.length : Int)) := by
  decide

/-- C3 amended: `step` is incremented at the start of each iteration, before
the loss computation; starting from a consistent state, `step` exceeds
`len(losses)` by exactly 1 at the two observation points between the
increment and the append, and equality is restored at the end of the
iteration. -/
theorem C3_step_incremented_first (ts : TrainState) (x : Rat)
    (h : ts.step = (ts.losses.length : Int)) :
    (bodyStates x ts).map (fun st => st.step - (st.losses.length : Int))
      = [1, 1, 0] := by
  simp [bodyStates, h]

/-- C3 amended, witness at the fresh state with loss `0`. -/
theorem C3_step_incremented_first_witness :
    newTrainState.step = (newTrainState.losses.length : Int)
  ∧ (bodyStates 0 newTrainState).map
      (fun st => st.step - (st.losses.length : Int)) = [1, 1, 0] :=
  ⟨by decide, C3_step_incremented_first newTrainState 0 (by decide)⟩

/-- C4: starting from a fresh `TrainState`, each completed loop iteration
increases `step` by exactly 1 and at the end of every iteration the length
of the `losses` list equals `step`. -/
theorem C4_step_monotone_invariant (logFreq steps : Int) (f : Nat → Rat)
    (w : Nat → Int) (g : Nat → Bool) :
    ∀ n : Nat,
      (runLoop logFreq steps f w g (n + 1)).train_state.step
        = (runLoop logFreq steps f w g n).train_state.step + 1
    ∧ ((runLoop logFreq steps f w g n).train_state.losses.length : Int)
        = (runLoop logFreq steps f w g n).train_state.step := by
  intro n
  constructor
  · show (loopBody logFreq steps (f n) (w n) (g n)
      (runLoop logFreq steps f w g n)).1.train_state.step = _
    rw [loopBody_fst]
  · rw [runLoop_step, runLoop_losses_length]

/-- C5: with a positive `log_freq`, a metric record is emitted at iteration
`k` (whose step is `k + 1`) exactly when `(step - 1) % log_freq == 0`, i.e.
at steps `1, 1 + log_freq, 1 + 2·log_freq, ...`; after each emission the
accumulation window (`losses_since_last_log`, `nwords_since_last_log`) is
reset; and with `log_freq = 5` over 10 steps exactly two emissions occur, at
steps 1 and 6. -/
theorem C5_log_cadence (logFreq steps : Int) (f : Nat → Rat) (w : Nat → Int)
    (g : Nat → Bool) (hlf : 0 < logFreq) :
    (∀ k : Nat, emitsAt logFreq steps f w g k = true
        ↔ ((k : Int) + 1 - 1) % logFreq = 0)
  ∧ (∀ k : Nat, emitsAt logFreq steps f w g k = true →
      (runLoop logFreq steps f w g (k + 1)).losses_since_last_log = []
    ∧ (runLoop logFreq steps f w g (k + 1)).nwords_since_last_log = 0)
  ∧ (List.range 10).filterMap
      (fun k => if emitsAt 5 steps f w g k then some (k + 1) else none)
      = [1, 6] := by
  refine ⟨?_, ?_, ?_⟩
  · intro k
    rw [emitsAt_eq]
    exact beq_iff_eq
  · intro k hk
    rw [emitsAt_eq] at hk
    show (loopBody logFreq steps (f k) (w k) (g k)
        (runLoop logFreq steps f w g k)).1.losses_since_last_log = []
      ∧ (loopBody logFreq steps (f k) (w k) (g k)
        (runLoop logFreq steps f w g k)).1.nwords_since_last_log = 0
    rw [loopBody_fst, runLoop_step]
    dsimp only
    rw [if_pos hk, if_pos hk]
    exact ⟨rfl, rfl⟩
  · have h : ∀ k : Nat, emitsAt 5 steps f w g k
        = (((k : Int) + 1 - 1) % 5 == 0) :=
      fun k => emitsAt_eq 5 steps f w g k
    simp only [h]
    decide

/-- C5 witness: `log_freq = 5` is positive, and the cadence, reset and
two-emission facts hold at `steps = 10` with constant inputs. -/
theorem C5_log_cadence_witness :
    (0 : Int) < 5
  ∧ ((∀ k : Nat,
        emitsAt 5 10 (fun _ => 0) (fun _ => 0) (fun _ => true) k = true
          ↔ ((k : Int) + 1 - 1) % 5 = 0)
   ∧ (∀ k : Nat,
        emitsAt 5 10 (fun _ => 0) (fun _ => 0) (fun _ => true) k = true →
        (runLoop 5 10 (fun _ => 0) (fun _ => 0) (fun _ => true)
          (k + 1)).losses_since_last_log = []
      ∧ (runLoop 5 10 (fun _ => 0) (fun _ => 0) (fun _ => true)
          (k + 1)).nwords_since_last_log = 0)
   ∧ (List.range 10).filterMap
       (fun k => if emitsAt 5 10 (fun _ => 0) (fun _ => 0) (fun _ => true) k
                 then some (k + 1) else none) = [1, 6]) :=
  ⟨by decide,
   C5_log_cadence 5 10 (fun _ => 0) (fun _ => 0) (fun _ => true) (by decide)⟩

/-- C6: with configured total steps `n > 0`, starting from the fresh state
the `while` guard holds before each of the first `n` iterations and fails
after iteration `n`, at which point `step = n` and `len(losses) = n`; with
the sentinel `steps = -1` the guard is true for every step value, so the
loop never terminates via the stop condition. -/
theorem C6_termination (logFreq : Int) (f : Nat → Rat) (w : Nat → Int)
    (g : Nat → Bool) (n : Nat) (hn : 0 < n) :
    (∀ k : Nat, k < n →
        loopGuard ((runLoop logFreq n f w g k).train_state.step) n = true)
  ∧ loopGuard ((runLoop logFreq n f w g n).train_state.step) n = false
  ∧ (runLoop logFreq n f w g n).train_state.step = n
  ∧ (runLoop logFreq n f w g n).train_state.losses.length = n
  ∧ (∀ s : Int, loopGuard s (-1) = true) := by
  refine ⟨?_, ?_, runLoop_step _ _ _ _ _ _, runLoop_losses_length _ _ _ _ _ _, ?_⟩
  · intro k hk
    rw [runLoop_step]
    simp only [loopGuard, Bool.or_eq_true, decide_eq_true_eq]
    exact Or.inl (by exact_mod_cast hk)
  · rw [runLoop_step]
    have h2 : ((n : Int) == -1) = false := by
      rw [beq_eq_false_iff_ne]
      omega
    simp [loopGuard, h2]
  · intro s
    simp [loopGuard]

/-- C6 witness: at `n = 3` total steps, the loop runs exactly 3 iterations
and stops with `step = 3`; the sentinel `-1` never stops it. -/
theorem C6_termination_witness :
    0 < 3
  ∧ ((∀ k : Nat, k < 3 →
        loopGuard ((runLoop 1 3 (fun _ => 0) (fun _ => 0) (fun _ => true)
          k).train_state.step) 3 = true)
   ∧ loopGuard ((runLoop 1 3 (fun _ => 0) (fun _ => 0) (fun _ => true)
        3).train_state.step) 3 = false
   ∧ (runLoop 1 3 (fun _ => 0) (fun _ => 0) (fun _ => true)
        3).train_state.step = 3
   ∧ (runLoop 1 3 (fun _ => 0) (fun _ => 0) (fun _ => true)
        3).train_state.losses.length = 3
   ∧ (∀ s : Int, loopGuard s (-1) = true)) :=
  ⟨by decide,
   C6_termination 1 (fun _ => 0) (fun _ => 0) (fun _ => true) 3 (by decide)⟩

/-- C7: in every loop iteration the checkpoint save is the last operation of
the body, its `force` flag is set exactly when the new step equals the
configured total steps, the `losses.append` update precedes it, and the next
iteration's batch fetch comes strictly after (it is preceded only by the step
increment of that next iteration). -/
theorem C7_save_last_and_forced (logFreq steps : Int) (x x' : Rat)
    (nw nw' : Int) (gf gf' : Bool) (st : LoopState) :
    (∃ pre, (loopBody logFreq steps x nw gf st).2
        = pre ++ [Event.save (st.train_state.step + 1)
                    ((st.train_state.step + 1) == steps)]
      ∧ Event.appendLoss x ∈ pre)
  ∧ (((st.train_state.step + 1) == steps) = true
      ↔ st.train_state.step + 1 = steps)
  ∧ (∃ rest, (loopBody logFreq steps x' nw' gf'
        (loopBody logFreq steps x nw gf st).1).2
      = Event.incStep (st.train_state.step + 1 + 1)
        :: Event.fetchBatch :: rest) := by
  refine ⟨⟨[.incStep (st.train_state.step + 1), .fetchBatch, .zeroGrad,
      .forward, .backward, .clipGrad, .optStep gf, .scalerUpdate,
      .appendLoss x]
    ++ (if (st.train_state.step + 1 - 1) % logFreq == 0
        then [Event.logMetrics (st.train_state.step + 1)] else [])
    ++ [Event.schedStep], ?_, ?_⟩, beq_iff_eq, ?_⟩
  · rw [loopBody_snd]
    simp [List.append_assoc]
  · simp
  · refine ⟨[.zeroGrad, .forward, .backward, .clipGrad, .optStep gf',
      .scalerUpdate, .appendLoss x']
    ++ (if (st.train_state.step + 1 + 1 - 1) % logFreq == 0
        then [Event.logMetrics (st.train_state.step + 1 + 1)] else [])
    ++ [Event.schedStep,
        Event.save (st.train_state.step + 1 + 1)
          ((st.train_state.step + 1 + 1) == steps)], ?_⟩
    rfl

/-- C8: every loop body advances the learning-rate scheduler exactly once
(exactly one `scheduler.step()` event), advances `step` by 1 regardless of
whether gradients were finite, and the optimizer-step operation records
whether it was taken (`scaler.step` skips it exactly when gradients are
non-finite) without aborting the iteration. -/
theorem C8_scheduler_steps_once (logFreq steps : Int) (x : Rat) (nw : Int)
    (gf : Bool) (st : LoopState) :
    ((loopBody logFreq steps x nw gf st).2.countP
        (fun e => match e with | Event.schedStep => true | _ => false) = 1)
  ∧ (loopBody logFreq steps x nw gf st).1.train_state.step
      = st.train_state.step + 1
  ∧ Event.optStep gf ∈ (loopBody logFreq steps x nw gf st).2 := by
  refine ⟨?_, rfl, ?_⟩
  · rw [loopBody_snd]
    cases h : ((st.train_state.step + 1 - 1) % logFreq == 0) <;>
      simp [h, List.countP_append, List.countP_cons]
  · rw [loopBody_snd]
    simp

/-- C9: the batch at every loop iteration is `next(iter(data_loader))`: a
fresh iterator is created each step, so the fetch always yields the first
element of the loader and every step receives the same batch. -/
theorem C9_refetch_from_start {α : Type} (dl : List α) :
    (∀ k : Nat, batchAtStep dl k = dl.head?)
  ∧ (∀ k1 k2 : Nat, batchAtStep dl k1 = batchAtStep dl k2) := by
  constructor
  · intro k
    cases dl <;> rfl
  · intro k1 k2
    rfl

end TorchTrain
